import Mathlib

/-!
Verification of the PDFStract orchestration layer against its specification.

The definitions below are a shallow embedding of the Python source:

* `PDFStract.convert`, `PDFStract.convertAsync`, `PDFStract.batchConvert`,
  `PDFStract.chunkTextAsync`, `PDFStract.convertChunkAsync` embed the methods
  of the same names in `src/pdfstract/api.py`.
* `registerDefaultConverters`, `getConverter`, `listAvailableConverters`,
  `listAllConverters` embed `OCRFactory` in `src/services/ocrfactory.py`.
* `MinerUConverter.prepare` and friends embed
  `src/services/converters/mineru_converter.py`.

External effects (the filesystem, the settings database, the backend
libraries and the chunker implementations) are modelled as explicit
environment records (`Env`, `BatchEnv`, `ChunkEnv`, the `dbResult`
argument): each field records the outcome the external collaborator would
produce, and the embedded functions consume those outcomes exactly the way
the Python control flow does.  A Python exception is an `Except.error`
value; an exception raised inside a backend carries its Python class name
in `BackendFailure.kind` and its `str(e)` message in `BackendFailure.msg`.
-/

deriving instance DecidableEq for Except

/-- Failure raised inside a backend call: `kind` is the Python exception
class name (the "native representation"), `msg` is `str(e)`. -/
structure BackendFailure where
  kind : String
  msg : String
deriving DecidableEq

/-- Result content of a conversion: Python `Union[str, Dict]`. -/
inductive Content where
  | str (s : String)
  | dict (entries : List (String × String))
deriving DecidableEq

/-- Errors raised by the `PDFStract` api layer (`src/pdfstract/api.py`):
`backendNotFound` is the `ValueError` listing available libraries,
`fileNotFound` is `FileNotFoundError`, `conversionFailed` is the
`ValueError` produced by the wrap-all `except` clause, `directoryNotFound`
is the `ValueError` raised by `batch_convert` on a missing directory. -/
inductive ApiError where
  | backendNotFound (library : String) (available : List String)
  | fileNotFound (path : String)
  | conversionFailed (msg : String)
  | directoryNotFound
deriving DecidableEq

/-- Environment a single-file conversion call runs in: `resolvable` is
whether `factory.get_converter name` is not `None`, `availableList` is
`factory.list_available_converters()`, `fileExists` is
`Path(p).exists()`, and `runConvert lib path fmt` is the outcome of
`OutputFormat(fmt)` parsing followed by the factory dispatch
(`factory.convert` / `factory.convert_async`, which share one
implementation: the synchronous one runs the asynchronous one to
completion). -/
structure Env where
  resolvable : String → Bool
  availableList : List String
  fileExists : String → Bool
  runConvert : String → String → String → Except BackendFailure Content

/-- Embeds `PDFStract.convert` (api.py lines 97-147): availability check
first, then file existence, then dispatch with the wrap-all handler. -/
def PDFStract.convert (env : Env) (pdfPath library outputFormat : String) :
    Except ApiError Content :=
  if env.resolvable library = false then
    .error (.backendNotFound library env.availableList)
  else if env.fileExists pdfPath = false then
    .error (.fileNotFound pdfPath)
  else
    match env.runConvert library pdfPath outputFormat with
    | .ok c => .ok c
    | .error f => .error (.conversionFailed ("Conversion failed: " ++ f.msg))

/-- Embeds `PDFStract.convert_async` (api.py lines 149-197): file existence
check first, then availability, then dispatch with the wrap-all handler. -/
def PDFStract.convertAsync (env : Env) (pdfPath library outputFormat : String) :
    Except ApiError Content :=
  if env.fileExists pdfPath = false then
    .error (.fileNotFound pdfPath)
  else if env.resolvable library = false then
    .error (.backendNotFound library env.availableList)
  else
    match env.runConvert library pdfPath outputFormat with
    | .ok c => .ok c
    | .error f => .error (.conversionFailed ("Conversion failed: " ++ f.msg))

/-- Environment in which both the availability check and the existence
check fail: no backend resolves and no file exists. -/
def envBoth : Env where
  resolvable := fun _ => false
  availableList := []
  fileExists := fun _ => false
  runConvert := fun _ _ _ => .error ⟨"RuntimeError", "boom"⟩

/-- Environment in which every backend resolves but no file exists. -/
def envAvailNoFile : Env where
  resolvable := fun _ => true
  availableList := ["marker"]
  fileExists := fun _ => false
  runConvert := fun _ _ _ => .error ⟨"RuntimeError", "boom"⟩

/-- Claim C2 counterexample: with an unresolvable backend and a missing
input file, the synchronous entry point raises the backend-not-found error
while the asynchronous one raises the file-not-found error, so the two
entry points do not present identical observable semantics. -/
theorem C2_counterexample :
    PDFStract.convert envBoth "missing.pdf" "nope" "markdown" =
      .error (.backendNotFound "nope" []) ∧
    PDFStract.convertAsync envBoth "missing.pdf" "nope" "markdown" =
      .error (.fileNotFound "missing.pdf") ∧
    PDFStract.convert envBoth "missing.pdf" "nope" "markdown" ≠
      PDFStract.convertAsync envBoth "missing.pdf" "nope" "markdown" := by
  refine ⟨rfl, rfl, ?_⟩
  decide

/-- Claim C2 (amended): the synchronous and asynchronous entry points
agree whenever the backend is resolvable or the input file exists; they
are separately implemented with the two precondition checks in opposite
orders, so they diverge exactly when the backend is unresolvable and the
file is simultaneously absent. -/
theorem C2_sync_async_agree (env : Env) (path lib fmt : String)
    (h : env.resolvable lib = true ∨ env.fileExists path = true) :
    PDFStract.convert env path lib fmt = PDFStract.convertAsync env path lib fmt := by
  unfold PDFStract.convert PDFStract.convertAsync
  rcases h with h | h <;>
    rcases hr : env.resolvable lib <;> rcases hf : env.fileExists path <;>
      simp_all

/-- Witness for `C2_sync_async_agree` at a concrete environment: the
backend resolves, the file is missing, and both entry points agree. -/
theorem C2_sync_async_agree_witness :
    PDFStract.convert envAvailNoFile "missing.pdf" "marker" "markdown" =
      PDFStract.convertAsync envAvailNoFile "missing.pdf" "marker" "markdown" :=
  C2_sync_async_agree envAvailNoFile "missing.pdf" "marker" "markdown" (Or.inl rfl)

/-- Claim C3 counterexample: in the asynchronous entry point, with an
unresolvable backend and a missing file, the error raised is the
file-not-found kind, not the backend-not-found kind, so the
availability-before-existence ordering does not hold for both entry
points. -/
theorem C3_counterexample :
    PDFStract.convertAsync envBoth "gone.pdf" "mystery" "markdown" =
      .error (.fileNotFound "gone.pdf") ∧
    PDFStract.convertAsync envBoth "gone.pdf" "mystery" "markdown" ≠
      .error (.backendNotFound "mystery" []) := by
  refine ⟨rfl, ?_⟩
  decide

/-- Claim C3 (amended): the availability check precedes the existence
check in the synchronous entry point (an unresolvable backend is reported
whatever the file's state), while the asynchronous entry point checks
existence first (a missing file is reported whatever the backend's
state); in both entry points, a resolvable backend with an absent file
yields the file-not-found error. -/
theorem C3_check_order (env : Env) (path lib fmt : String) :
    (env.resolvable lib = false →
      PDFStract.convert env path lib fmt =
        .error (.backendNotFound lib env.availableList)) ∧
    (env.fileExists path = false →
      PDFStract.convertAsync env path lib fmt = .error (.fileNotFound path)) ∧
    (env.resolvable lib = true → env.fileExists path = false →
      PDFStract.convert env path lib fmt = .error (.fileNotFound path) ∧
      PDFStract.convertAsync env path lib fmt = .error (.fileNotFound path)) := by
  refine ⟨?_, ?_, ?_⟩ <;> intro h <;>
    simp [PDFStract.convert, PDFStract.convertAsync, h]
  intro hf
  simp [hf]

/-- Textual representation of a Python dict of strings, as `str(d)` would
render it (modulo quoting, which no claim depends on). -/
def pyStrDict (entries : List (String × String)) : String :=
  "\x7b" ++ String.intercalate ", " (entries.map fun p => p.1 ++ ": " ++ p.2) ++ "\x7d"

/-- Embeds `extracted_content if isinstance(extracted_content, str) else
str(extracted_content)` from `convert_chunk_async` (api.py line 474). -/
def pyStr : Content → String
  | .str s => s
  | .dict entries => pyStrDict entries

/-- Stand-in for `result.to_dict()` returned by the chunker factory: an
opaque record the api layer passes through unchanged. -/
abbrev ChunkDict := List (String × String)

/-- Errors raised by `chunk_text_async` (api.py lines 316-360):
`noChunkerAvailable` for a failed `auto` selection, `chunkerNotAvailable`
for a name missing from the available list, `emptyText` for empty or
whitespace-only text, and `backendRaise` for an exception of
`factory.chunk_with_result`, which this method does not catch. -/
inductive ChunkError where
  | noChunkerAvailable
  | chunkerNotAvailable (name : String) (available : List String)
  | emptyText
  | backendRaise (f : BackendFailure)
deriving DecidableEq

/-- Environment a chunking call runs in: the factory's available-chunker
list, the name of `factory.get_default_chunker()` when one exists, and
the outcome of `factory.chunk_with_result name text`. -/
structure ChunkEnv where
  availableChunkers : List String
  defaultChunker : Option String
  runChunk : String → String → Except BackendFailure ChunkDict

/-- Embeds `PDFStract.chunk_text_async` (api.py lines 316-360): resolve
(`auto` picks the factory default), then the availability check, then the
empty-text check, then dispatch (uncaught). -/
def PDFStract.chunkTextAsync (cenv : ChunkEnv) (text chunker : String) :
    Except ChunkError ChunkDict :=
  match (if chunker = "auto" then cenv.defaultChunker else some chunker) with
  | none => .error .noChunkerAvailable
  | some c =>
    if cenv.availableChunkers.contains c = false then
      .error (.chunkerNotAvailable c cenv.availableChunkers)
    else if text.trim = "" then
      .error .emptyText
    else
      match cenv.runChunk c text with
      | .ok d => .ok d
      | .error f => .error (.backendRaise f)

/-- Chunking environment with no available chunkers. -/
def cenvNone : ChunkEnv where
  availableChunkers := []
  defaultChunker := none
  runChunk := fun _ _ => .error ⟨"RuntimeError", "never reached"⟩

/-- Claim C8 counterexample: for empty text together with an unavailable
chunker name, the error reported is the chunker-not-available kind, not
the empty-text kind: the availability check runs before the empty-text
check, not after it as the claim states. -/
theorem C8_counterexample :
    PDFStract.chunkTextAsync cenvNone "" "token" =
      .error (.chunkerNotAvailable "token" []) ∧
    PDFStract.chunkTextAsync cenvNone "" "token" ≠ .error .emptyText := by
  refine ⟨rfl, ?_⟩
  decide

/-- Claim C8 (amended): every chunking call follows the four-step order
resolve → validate chunker availability → validate non-empty text →
dispatch; for an empty text together with an unavailable chunker name the
availability error is the one reported, and resolving `auto` with no
default chunker reports the no-chunker-available error. -/
theorem C8_chunk_contract (cenv : ChunkEnv) (text c : String) (hc : c ≠ "auto") :
    (cenv.defaultChunker = none →
      PDFStract.chunkTextAsync cenv text "auto" = .error .noChunkerAvailable) ∧
    (cenv.availableChunkers.contains c = false →
      PDFStract.chunkTextAsync cenv text c =
        .error (.chunkerNotAvailable c cenv.availableChunkers)) ∧
    (cenv.availableChunkers.contains c = true → text.trim = "" →
      PDFStract.chunkTextAsync cenv text c = .error .emptyText) ∧
    (cenv.availableChunkers.contains c = true → text.trim ≠ "" →
      PDFStract.chunkTextAsync cenv text c =
        match cenv.runChunk c text with
        | .ok d => .ok d
        | .error f => .error (.backendRaise f)) := by
  refine ⟨fun h => ?_, fun h => ?_, fun h ht => ?_, fun h ht => ?_⟩
  · simp [PDFStract.chunkTextAsync, h]
  · have h2 : c ∉ cenv.availableChunkers := by simpa using h
    simp [PDFStract.chunkTextAsync, hc, h2]
  · have h2 : c ∈ cenv.availableChunkers := by simpa using h
    simp [PDFStract.chunkTextAsync, hc, h2, ht]
  · have h2 : c ∈ cenv.availableChunkers := by simpa using h
    simp [PDFStract.chunkTextAsync, hc, h2, ht]

/-- Witness for `C8_chunk_contract`: with no chunker available and empty
text, the availability error is reported. -/
theorem C8_chunk_contract_witness :
    PDFStract.chunkTextAsync cenvNone "" "token" =
      .error (.chunkerNotAvailable "token" []) :=
  (C8_chunk_contract cenvNone "" "token" (by decide)).2.1 rfl

/-- Errors escaping `convert_chunk_async`: either the conversion error or
the chunking error, each propagating unchanged. -/
inductive PipelineError where
  | fromConvert (e : ApiError)
  | fromChunk (e : ChunkError)
deriving DecidableEq

/-- Embeds `PDFStract.convert_chunk_async` (api.py lines 452-481): run
`convert_async`, then chunk its (rendered) output, returning both. -/
def PDFStract.convertChunkAsync (env : Env) (cenv : ChunkEnv)
    (path lib chunker fmt : String) : Except PipelineError (Content × ChunkDict) :=
  match PDFStract.convertAsync env path lib fmt with
  | .error e => .error (.fromConvert e)
  | .ok content =>
    match PDFStract.chunkTextAsync cenv (pyStr content) chunker with
    | .error e => .error (.fromChunk e)
    | .ok r => .ok (content, r)

/-- Claim C7: in the combined pipeline, a failed extraction propagates its
error unchanged and chunking is never attempted (the outcome is the same
for every chunking environment and chunker name); a successful extraction
feeds the chunker exactly the rendered text, where a structured (dict)
result is rendered to its textual representation. -/
theorem C7_pipeline (env : Env) (cenv cenv2 : ChunkEnv)
    (path lib chunker chunker2 fmt : String) :
    (∀ e, PDFStract.convertAsync env path lib fmt = .error e →
      PDFStract.convertChunkAsync env cenv path lib chunker fmt =
        .error (.fromConvert e) ∧
      PDFStract.convertChunkAsync env cenv path lib chunker fmt =
        PDFStract.convertChunkAsync env cenv2 path lib chunker2 fmt) ∧
    (∀ c, PDFStract.convertAsync env path lib fmt = .ok c →
      (PDFStract.convertChunkAsync env cenv path lib chunker fmt =
        match PDFStract.chunkTextAsync cenv (pyStr c) chunker with
        | .error e => .error (.fromChunk e)
        | .ok r => .ok (c, r)) ∧
      ∀ entries, c = .dict entries → pyStr c = pyStrDict entries) := by
  constructor
  · intro e he
    constructor <;> simp [PDFStract.convertChunkAsync, he]
  · intro c hc
    constructor
    · simp [PDFStract.convertChunkAsync, hc]
    · intro entries hentries
      simp [hentries, pyStr]

/-- One entry of the batch result mapping: the produced content on
success, or the record carrying the error message (`str(e)`) on failure. -/
inductive BatchEntry where
  | content (c : Content)
  | failure (msg : String)
deriving DecidableEq

/-- The aggregate `batch_convert` builds: success count, failure count and
the per-file result mapping (an association list keyed by file name, in
submission order, as the futures are awaited in submission order). -/
structure BatchResult where
  success : Nat
  failed : Nat
  results : List (String × BatchEntry)
deriving DecidableEq

/-- Environment a batch conversion runs in: whether the directory exists,
the sorted snapshot of the names matched by `sorted(pdf_dir.glob("*.pdf"))`,
backend resolution, and each file's conversion outcome for the chosen
library (the format is fixed for the whole batch, so it is folded into
`runConvert`). -/
structure BatchEnv where
  dirExists : Bool
  pdfFiles : List String
  resolvable : String → Bool
  availableList : List String
  runConvert : String → String → Except BackendFailure Content

/-- The entry the batch loop records for one file, given that file's own
conversion outcome (api.py lines 252-275). -/
def entryOf : Except BackendFailure Content → BatchEntry
  | .ok c => .content c
  | .error f => .failure f.msg

/-- One iteration of the aggregation loop of `batch_convert` (api.py lines
267-275): bump the matching counter and record the file's entry. -/
def batchStep (library : String) (run : String → String → Except BackendFailure Content)
    (acc : BatchResult) (f : String) : BatchResult :=
  match run library f with
  | .ok c =>
    { acc with success := acc.success + 1, results := acc.results ++ [(f, .content c)] }
  | .error e =>
    { acc with failed := acc.failed + 1, results := acc.results ++ [(f, .failure e.msg)] }

/-- Embeds `PDFStract.batch_convert` (api.py lines 199-277): directory
check, empty-glob short-circuit, backend resolution, then the aggregation
loop over the file snapshot. -/
def PDFStract.batchConvert (env : BatchEnv) (library : String) :
    Except ApiError BatchResult :=
  if env.dirExists = false then
    .error .directoryNotFound
  else if env.pdfFiles.isEmpty then
    .ok ⟨0, 0, []⟩
  else if env.resolvable library = false then
    .error (.backendNotFound library env.availableList)
  else
    .ok (env.pdfFiles.foldl (batchStep library env.runConvert) ⟨0, 0, []⟩)

/-- The aggregation loop appends, for each file in order, exactly the
entry determined by that file's own outcome. -/
theorem batchStep_foldl_results (library : String)
    (run : String → String → Except BackendFailure Content)
    (files : List String) (acc : BatchResult) :
    (files.foldl (batchStep library run) acc).results =
      acc.results ++ files.map fun f => (f, entryOf (run library f)) := by
  induction files generalizing acc with
  | nil => simp
  | cons f fs ih =>
    rw [List.foldl_cons, ih]
    cases h : run library f <;> simp [batchStep, h, entryOf]

/-- The aggregation loop adds exactly one count (success or failure) per
file. -/
theorem batchStep_foldl_counts (library : String)
    (run : String → String → Except BackendFailure Content)
    (files : List String) (acc : BatchResult) :
    (files.foldl (batchStep library run) acc).success +
      (files.foldl (batchStep library run) acc).failed =
      acc.success + acc.failed + files.length := by
  induction files generalizing acc with
  | nil => simp
  | cons f fs ih =>
    rw [List.foldl_cons, ih]
    cases h : run library f <;> simp [batchStep, h] <;> omega

/-- Mapping each element to a pair headed by itself and projecting the
heads back out returns the original list. -/
theorem map_fst_pair {β : Type} (g : String → β) (l : List String) :
    (l.map fun x => (x, g x)).map Prod.fst = l := by
  induction l with
  | nil => rfl
  | cons a l ih => simp [ih]

/-- Looking a key up in an association list whose value is a function of
its key returns that function of the key, for any member key. -/
theorem lookup_map_pair {β : Type} (g : String → β) :
    ∀ (l : List String) (f : String), f ∈ l →
      (l.map fun x => (x, g x)).lookup f = some (g f) := by
  intro l
  induction l with
  | nil => intro f hf; cases hf
  | cons a l ih =>
    intro f hf
    by_cases hfa : f = a
    · subst hfa
      simp [List.lookup]
    · have hf2 : f ∈ l := by
        rcases List.mem_cons.mp hf with h | h
        · exact absurd h hfa
        · exact h
      have hb : (f == a) = false := beq_eq_false_iff_ne.mpr hfa
      simpa [List.lookup, hb] using ih f hf2

/-- Claim C4: a batch over a non-empty snapshot (distinct file names, as a
directory listing yields) with a resolvable backend returns an aggregate
whose counts sum to the number of inputs, whose mapping has exactly one
entry per input name (the keys are the inputs, without duplicates), and
where each input's entry is determined solely by that input's own
conversion outcome — the produced content on success, the error-message
record on failure — so one item's failure leaves every other entry
unaffected. -/
theorem C4_batch_invariants (env : BatchEnv) (library : String)
    (hdir : env.dirExists = true) (hne : env.pdfFiles ≠ [])
    (hres : env.resolvable library = true) (hnd : env.pdfFiles.Nodup) :
    ∃ b : BatchResult,
      PDFStract.batchConvert env library = .ok b ∧
      b.success + b.failed = env.pdfFiles.length ∧
      b.results.map Prod.fst = env.pdfFiles ∧
      (b.results.map Prod.fst).Nodup ∧
      ∀ f ∈ env.pdfFiles,
        b.results.lookup f = some (entryOf (env.runConvert library f)) := by
  have hres2 : (env.pdfFiles.foldl (batchStep library env.runConvert) ⟨0, 0, []⟩).results =
      env.pdfFiles.map fun f => (f, entryOf (env.runConvert library f)) := by
    rw [batchStep_foldl_results]
    rfl
  have hkeys : ((env.pdfFiles.foldl (batchStep library env.runConvert)
      ⟨0, 0, []⟩).results).map Prod.fst = env.pdfFiles := by
    rw [hres2, map_fst_pair]
  refine ⟨env.pdfFiles.foldl (batchStep library env.runConvert) ⟨0, 0, []⟩,
    ?_, ?_, hkeys, ?_, ?_⟩
  · simp [PDFStract.batchConvert, hdir, hres, List.isEmpty_iff, hne]
  · simpa using batchStep_foldl_counts library env.runConvert env.pdfFiles ⟨0, 0, []⟩
  · rw [hkeys]
    exact hnd
  · intro f hf
    rw [hres2]
    exact lookup_map_pair (fun x => entryOf (env.runConvert library x)) env.pdfFiles f hf

/-- Batch environment for the witnesses: an existing directory holding two
files, one of which converts and one of which fails. -/
def benvTwo : BatchEnv where
  dirExists := true
  pdfFiles := ["a.pdf", "b.pdf"]
  resolvable := fun _ => true
  availableList := ["marker"]
  runConvert := fun _ f =>
    if f = "a.pdf" then .ok (.str "content A") else .error ⟨"RuntimeError", "bad page"⟩

/-- Witness for `C4_batch_invariants`: a concrete two-file batch in which
one item fails satisfies every conjunct. -/
theorem C4_batch_invariants_witness :
    ∃ b : BatchResult,
      PDFStract.batchConvert benvTwo "marker" = .ok b ∧
      b.success + b.failed = benvTwo.pdfFiles.length ∧
      b.results.map Prod.fst = benvTwo.pdfFiles ∧
      (b.results.map Prod.fst).Nodup ∧
      ∀ f ∈ benvTwo.pdfFiles,
        b.results.lookup f = some (entryOf (benvTwo.runConvert "marker" f)) :=
  C4_batch_invariants benvTwo "marker" rfl (by decide) rfl (by decide)

/-- Claim C5: a batch over an existing directory whose file snapshot is
empty returns exactly the zero aggregate, for every backend name and for
every resolution environment (in particular for names that resolve to
nothing): the backend is never resolved. -/
theorem C5_empty_batch (env : BatchEnv) (library : String)
    (hdir : env.dirExists = true) (hempty : env.pdfFiles = []) :
    PDFStract.batchConvert env library = .ok ⟨0, 0, []⟩ := by
  simp [PDFStract.batchConvert, hdir, hempty]

/-- Batch environment for the C5 witness: an existing empty directory and
a resolution function that knows no backend at all. -/
def benvEmpty : BatchEnv where
  dirExists := true
  pdfFiles := []
  resolvable := fun _ => false
  availableList := []
  runConvert := fun _ _ => .error ⟨"RuntimeError", "never reached"⟩

/-- Witness for `C5_empty_batch`: an empty directory with an unknown
backend name still returns the zero aggregate. -/
theorem C5_empty_batch_witness :
    PDFStract.batchConvert benvEmpty "anyBackend" = .ok ⟨0, 0, []⟩ :=
  C5_empty_batch benvEmpty "anyBackend" rfl rfl

/-- Environment in which the backend resolves, the file exists, and the
dispatched backend call raises the given failure. -/
def envRun (f : BackendFailure) : Env where
  resolvable := fun _ => true
  availableList := ["mineru"]
  fileExists := fun _ => true
  runConvert := fun _ _ _ => .error f

/-- Claim C6: when the dispatched backend call raises, both entry points
surface the conversion-failed error kind carrying the backend's original
message as context, and the outcome is the same for any failure with the
same message whatever its native exception kind: the backend-internal
exception type never crosses the boundary. -/
theorem C6_backend_failure_wrapped (env : Env) (path lib fmt : String)
    (f : BackendFailure)
    (hres : env.resolvable lib = true) (hfile : env.fileExists path = true)
    (hrun : env.runConvert lib path fmt = .error f) :
    PDFStract.convert env path lib fmt =
      .error (.conversionFailed ("Conversion failed: " ++ f.msg)) ∧
    PDFStract.convertAsync env path lib fmt =
      .error (.conversionFailed ("Conversion failed: " ++ f.msg)) ∧
    ∀ g : BackendFailure, g.msg = f.msg →
      PDFStract.convert (envRun g) path lib fmt =
        .error (.conversionFailed ("Conversion failed: " ++ f.msg)) := by
  refine ⟨?_, ?_, ?_⟩
  · simp [PDFStract.convert, hres, hfile, hrun]
  · simp [PDFStract.convertAsync, hres, hfile, hrun]
  · intro g hg
    simp [PDFStract.convert, envRun, hg]

/-- Witness for `C6_backend_failure_wrapped`: a MinerU-style runtime
failure is surfaced as the conversion-failed kind with the original
message, in both entry points. -/
theorem C6_backend_failure_wrapped_witness :
    PDFStract.convert (envRun ⟨"RuntimeError", "MinerU CLI failed: exit 1"⟩)
        "doc.pdf" "mineru" "markdown" =
      .error (.conversionFailed "Conversion failed: MinerU CLI failed: exit 1") ∧
    PDFStract.convertAsync (envRun ⟨"RuntimeError", "MinerU CLI failed: exit 1"⟩)
        "doc.pdf" "mineru" "markdown" =
      .error (.conversionFailed "Conversion failed: MinerU CLI failed: exit 1") ∧
    ∀ g : BackendFailure, g.msg = "MinerU CLI failed: exit 1" →
      PDFStract.convert (envRun g) "doc.pdf" "mineru" "markdown" =
        .error (.conversionFailed "Conversion failed: MinerU CLI failed: exit 1") :=
  C6_backend_failure_wrapped (envRun ⟨"RuntimeError", "MinerU CLI failed: exit 1"⟩)
    "doc.pdf" "mineru" "markdown" ⟨"RuntimeError", "MinerU CLI failed: exit 1"⟩
    rfl rfl rfl

/-- Descriptor of one constructed converter as the registry sees it:
`name`, the computed `available` flag, and its `error_message` text. -/
structure ConvDesc where
  name : String
  available : Bool
  errorMessage : String
deriving DecidableEq

/-- Python errors the factory itself can raise: `unboundLocal` is the
`UnboundLocalError`/`NameError` raised when a local variable is referenced
without having been bound. -/
inductive PyError where
  | unboundLocal (var : String)
deriving DecidableEq

/-- Embeds `OCRFactory._register_default_converters` (ocrfactory.py lines
35-71).  `dbResult` is the outcome of `self.db_service.get_enabled_libraries()`.
On a database exception the handler only logs, so the very next line
(`logger.info` interpolating `enabled_libraries`) references the unbound
local and raises.  On an empty enabled set the method returns early,
leaving `self._converters` empty.  Otherwise each constructed converter is
registered when it is both enabled and available. -/
def registerDefaultConverters (dbResult : Except String (List String))
    (allConverters : List ConvDesc) :
    Except PyError (List (String × ConvDesc)) :=
  match dbResult with
  | .error _ => .error (.unboundLocal "enabled_libraries")
  | .ok enabledLibraries =>
    if enabledLibraries.isEmpty then
      .ok []
    else
      .ok (allConverters.filterMap fun c =>
        if enabledLibraries.contains c.name && c.available then some (c.name, c) else none)

/-- Embeds `OCRFactory.get_converter` (ocrfactory.py lines 73-75):
dictionary lookup by name. -/
def getConverter (registry : List (String × ConvDesc)) (name : String) :
    Option ConvDesc :=
  registry.lookup name

/-- Embeds `OCRFactory.list_available_converters` (ocrfactory.py lines
77-79): the registered names. -/
def listAvailableConverters (registry : List (String × ConvDesc)) : List String :=
  registry.map Prod.fst

/-- One row of `list_all_converters`: name, computed availability, error
text and the configured enablement flag. -/
structure ConverterInfo where
  name : String
  available : Bool
  errorText : Option String
  enabled : Bool
deriving DecidableEq

/-- The literal list of known backend kinds in `list_all_converters`
(ocrfactory.py lines 88-97). -/
def knownConverterNames : List String :=
  ["pymupdf4llm", "markitdown", "marker", "docling", "paddleocr",
   "deepseekocr", "pytesseract", "unstructured"]

/-- Embeds `OCRFactory.list_all_converters` (ocrfactory.py lines 81-109).
On a database exception the handler only logs; the loop body then
references the unbound local `enabled_libraries` on its first iteration
(the known-name list is a non-empty literal), so the call raises. -/
def listAllConverters (dbResult : Except String (List String))
    (registry : List (String × ConvDesc)) :
    Except PyError (List ConverterInfo) :=
  match dbResult with
  | .error _ => .error (.unboundLocal "enabled_libraries")
  | .ok enabledLibraries =>
    .ok (knownConverterNames.map fun n =>
      let conv := registry.lookup n
      let avail := match conv with
        | some c => c.available
        | none => false
      { name := n
        available := avail
        errorText := if avail then none else some (match conv with
          | some c => c.errorMessage
          | none => "Unavailable")
        enabled := enabledLibraries.contains n })

/-- Two available converter kinds, standing for the constructed
`all_converters` list when their dependencies are installed. -/
def demoAllConverters : List ConvDesc :=
  [⟨"pymupdf4llm", true, ""⟩, ⟨"markitdown", true, ""⟩]

/-- Claim C1: evaluating the registry build at the failing input.  With an
empty enabled set and available converters present, the code returns
before the registration loop, so the registry is empty and no backend is
resolvable — contrary to the documented fail-open fallback (and to the
method's own log line announcing that it registers all converters). -/
theorem C1_empty_enabled_registers_nothing :
    registerDefaultConverters (.ok []) demoAllConverters = .ok [] ∧
    getConverter [] "pymupdf4llm" = none ∧
    listAvailableConverters [] = [] :=
  ⟨rfl, rfl, rfl⟩

/-- Claim C10: when the enablement source raises, both the registry build
and the listing raise the unbound-local error for `enabled_libraries`
instead of falling back to any default set, and no registry is produced. -/
theorem C10_db_failure_raises (e : String) (allConverters : List ConvDesc)
    (registry : List (String × ConvDesc)) :
    registerDefaultConverters (.error e) allConverters =
      .error (.unboundLocal "enabled_libraries") ∧
    listAllConverters (.error e) registry =
      .error (.unboundLocal "enabled_libraries") :=
  ⟨rfl, rfl⟩

/-- Download lifecycle states of a backend (`services.base.DownloadStatus`
as used by the MinerU converter and §4.2 of the spec). -/
inductive DownloadStatus where
  | notRequired
  | pending
  | downloading
  | ready
  | failed
deriving DecidableEq

/-- The mutable fields `MinerUConverter.__init__` sets (mineru_converter.py
lines 48-52). -/
structure MinerUState where
  initialized : Bool
  downloadStatusField : DownloadStatus
  downloadErrorField : Option String
  isDownloading : Bool
deriving DecidableEq

/-- The state `MinerUConverter.__init__` establishes. -/
def MinerUConverter.initState : MinerUState :=
  ⟨true, .notRequired, none, false⟩

/-- `MinerUConverter.download_status` (mineru_converter.py lines 73-74): a
constant. -/
def MinerUConverter.downloadStatus : DownloadStatus := .notRequired

/-- `MinerUConverter.available` (mineru_converter.py lines 58-60):
the module-level CLI probe result, passed in as `mineruCliOk`. -/
def MinerUConverter.available (mineruCliOk : Bool) : Bool := mineruCliOk

/-- Embeds `MinerUConverter.prepare` (mineru_converter.py lines 80-82):
returns `MINERU_AVAILABLE` and touches nothing, so the state is returned
unchanged. -/
def MinerUConverter.prepare (mineruCliOk : Bool) (s : MinerUState) :
    Bool × MinerUState :=
  (mineruCliOk, s)

/-- Modelled from the spec: the §4.2 lifecycle state of a download-requiring
backend — the repository's download-requiring converters are not under
`src/`, only the CLI-based MinerU converter is.  `attempts` counts the
download attempts performed, to make "no second download attempt"
observable. -/
structure LifecycleState where
  status : DownloadStatus
  downloadErrorField : Option String
  attempts : Nat
deriving DecidableEq

/-- Modelled from the spec: availability of a lifecycle-tracked backend —
dependencies present and the lifecycle in a usable state (§3 invariant:
available implies status is NOT_REQUIRED or READY). -/
def lifecycleAvailable (depOk : Bool) (s : LifecycleState) : Bool :=
  depOk && (s.status == .ready || s.status == .notRequired)

/-- Modelled from the spec: §4.2 `prepare()` — a no-op returning the
current availability on a `READY` or `NOT_REQUIRED` (or in-flight) backend,
and one download attempt moving `PENDING`/`FAILED` to `READY` or `FAILED`
according to the download outcome. -/
def lifecyclePrepare (depOk : Bool) (downloadOutcome : Except String Unit)
    (s : LifecycleState) : Bool × LifecycleState :=
  match s.status with
  | .notRequired => (lifecycleAvailable depOk s, s)
  | .ready => (lifecycleAvailable depOk s, s)
  | .downloading => (lifecycleAvailable depOk s, s)
  | .pending | .failed =>
    match downloadOutcome with
    | .ok _ =>
      let t : LifecycleState :=
        { status := .ready, downloadErrorField := none, attempts := s.attempts + 1 }
      (lifecycleAvailable depOk t, t)
    | .error e =>
      let t : LifecycleState :=
        { status := .failed, downloadErrorField := some e, attempts := s.attempts + 1 }
      (lifecycleAvailable depOk t, t)

/-- Claim C9: `prepare()` on a backend whose status is `READY` or
`NOT_REQUIRED` is an idempotent no-op returning the current availability:
the MinerU converter (always `NOT_REQUIRED`) returns its availability and
leaves its state untouched, twice in a row; the spec-modelled lifecycle
`prepare` likewise returns the current availability, leaves the state
unchanged, performs no download attempt, and yields the same result when
called again. -/
theorem C9_prepare_idempotent (mineruCliOk depOk : Bool)
    (out : Except String Unit) (s : MinerUState) (t : LifecycleState)
    (ht : t.status = .ready ∨ t.status = .notRequired) :
    MinerUConverter.downloadStatus = DownloadStatus.notRequired ∧
    MinerUConverter.prepare mineruCliOk s = (MinerUConverter.available mineruCliOk, s) ∧
    MinerUConverter.prepare mineruCliOk (MinerUConverter.prepare mineruCliOk s).2 =
      MinerUConverter.prepare mineruCliOk s ∧
    lifecyclePrepare depOk out t = (lifecycleAvailable depOk t, t) ∧
    lifecyclePrepare depOk out (lifecyclePrepare depOk out t).2 =
      lifecyclePrepare depOk out t ∧
    (lifecyclePrepare depOk out t).2.attempts = t.attempts := by
  have hp : lifecyclePrepare depOk out t = (lifecycleAvailable depOk t, t) := by
    rcases ht with h | h <;>
      · unfold lifecyclePrepare
        rw [h]
  refine ⟨rfl, rfl, rfl, hp, ?_, ?_⟩
  · rw [hp]
    exact hp
  · rw [hp]

/-- Witness for `C9_prepare_idempotent`: concrete `READY` lifecycle state
and the MinerU initial state; projecting the no-second-attempt conjunct. -/
theorem C9_prepare_idempotent_witness :
    (lifecyclePrepare true (.ok ()) ⟨.ready, none, 0⟩).2.attempts =
      (⟨.ready, none, 0⟩ : LifecycleState).attempts :=
  (C9_prepare_idempotent true true (.ok ()) MinerUConverter.initState
    ⟨.ready, none, 0⟩ (Or.inl rfl)).2.2.2.2.2
